import Mathlib

/-!
Verification development for the aws-fx-pipeline repository: three AWS Lambda
jobs (Ingest, Transform, Analysis) forming a daily FX-rate batch pipeline.
External services (SSM, S3, Athena, CloudWatch, the upstream HTTP API) are
modelled as oracle inputs; each handler is embedded as a pure function from
its event and an oracle world to a result together with a trace of the side
effects it performed (S3 writes, queries started, metrics published).

Dates follow the proleptic Gregorian calendar exactly as implemented by
Python's `datetime` module (leap year iff divisible by 4 and not by 100
unless by 400; `toordinal` counting days from 0001-01-01 = day 1;
`weekday()` = (toordinal + 6) % 7 with Monday = 0).
-/

namespace FxPipeline

/-- A calendar date, the date part of a Python `datetime`. -/
structure Date where
  year : Nat
  month : Nat
  day : Nat
deriving DecidableEq, Repr

/-- Gregorian leap-year rule, as in Python's `calendar.isleap` /
`datetime._is_leap`: divisible by 4 and (not by 100 or by 400). -/
def isLeap (y : Nat) : Bool :=
  y % 4 == 0 && (y % 100 != 0 || y % 400 == 0)

/-- Number of days in a month, as in `datetime._days_in_month`. -/
def daysInMonth (y m : Nat) : Nat :=
  match m with
  | 1 => 31
  | 2 => if isLeap y then 29 else 28
  | 3 => 31
  | 4 => 30
  | 5 => 31
  | 6 => 30
  | 7 => 31
  | 8 => 31
  | 9 => 30
  | 10 => 31
  | 11 => 30
  | 12 => 31
  | _ => 0

/-- Days in the year strictly before month `m`, as in
`datetime._days_before_month`. -/
def daysBeforeMonth (y m : Nat) : Nat :=
  match m with
  | 1 => 0
  | 2 => 31
  | 3 => 59 + (if isLeap y then 1 else 0)
  | 4 => 90 + (if isLeap y then 1 else 0)
  | 5 => 120 + (if isLeap y then 1 else 0)
  | 6 => 151 + (if isLeap y then 1 else 0)
  | 7 => 181 + (if isLeap y then 1 else 0)
  | 8 => 212 + (if isLeap y then 1 else 0)
  | 9 => 243 + (if isLeap y then 1 else 0)
  | 10 => 273 + (if isLeap y then 1 else 0)
  | 11 => 304 + (if isLeap y then 1 else 0)
  | 12 => 334 + (if isLeap y then 1 else 0)
  | _ => 0

/-- Days before January 1st of year `y`, as in `datetime._days_before_year`:
`(y-1)*365 + (y-1)//4 - (y-1)//100 + (y-1)//400`. -/
def daysBeforeYear (y : Nat) : Nat :=
  (y - 1) * 365 + (y - 1) / 4 - (y - 1) / 100 + (y - 1) / 400

/-- Python's `date.toordinal()`: 0001-01-01 is day 1. -/
def Date.toordinal (d : Date) : Nat :=
  daysBeforeYear d.year + daysBeforeMonth d.year d.month + d.day

/-- Python's `date.weekday()`: Monday is 0, Sunday is 6. -/
def Date.weekday (d : Date) : Nat :=
  (d.toordinal + 6) % 7

/-- A date the `datetime` library can represent. -/
def Date.Valid (d : Date) : Prop :=
  1 ≤ d.year ∧ d.year ≤ 9999 ∧ 1 ≤ d.month ∧ d.month ≤ 12 ∧
    1 ≤ d.day ∧ d.day ≤ daysInMonth d.year d.month

instance (d : Date) : Decidable d.Valid := by
  unfold Date.Valid; infer_instance

/-- The calendar date one day earlier. This is the date part of
`dt - timedelta(days=1)` in the `datetime` library (a whole-day timedelta
leaves the time-of-day untouched and moves the date back one day; the
lemma `toordinal_prevDay` below checks this model against the library's
ordinal-based arithmetic). -/
def Date.prevDay (d : Date) : Date :=
  if d.day > 1 then ⟨d.year, d.month, d.day - 1⟩
  else if d.month > 1 then ⟨d.year, d.month - 1, daysInMonth d.year (d.month - 1)⟩
  else ⟨d.year - 1, 12, 31⟩

/-- A `datetime` value: a date plus a time-of-day and an optional UTC offset
in minutes (the offset a trailing `+00:00`, i.e. a normalized `Z`, parses
to). `fromisoformat` of a valid ISO-8601 string yields exactly its
components, so a parsed event is represented by this structure directly. -/
structure DateTime where
  date : Date
  hour : Nat
  minute : Nat
  second : Nat
  offsetMinutes : Option Int
deriving DecidableEq, Repr

/-- Model of `dt - timedelta(days=1)`: the date moves back one day, the wall-clock
time-of-day and the offset are unchanged. -/
def DateTime.subOneDay (dt : DateTime) : DateTime :=
  { dt with date := dt.date.prevDay }

/-- An invocation event: the single `run_date` field, after
`datetime.fromisoformat(raw_run_date.replace("Z", "+00:00"))`. -/
structure Event where
  run_date : DateTime
deriving DecidableEq, Repr

/-! ### Decimal digit strings and zero padding

`padNum w n` models Python's `f"{n:0wd}"`: the decimal representation of
`n`, left-padded with `'0'` to a minimum width of `w`. -/

/-- The character for a single decimal digit. -/
def digitChar : Nat → Char
  | 0 => '0'
  | 1 => '1'
  | 2 => '2'
  | 3 => '3'
  | 4 => '4'
  | 5 => '5'
  | 6 => '6'
  | 7 => '7'
  | 8 => '8'
  | 9 => '9'
  | _ => '*'

/-- Little-endian base-10 digits, with explicit fuel so that the kernel can
evaluate it; `digitsRev_eq` identifies it with `Nat.digits 10`. -/
def digitsRev (fuel n : Nat) : List Nat :=
  match fuel with
  | 0 => []
  | fuel + 1 => if n = 0 then [] else n % 10 :: digitsRev fuel (n / 10)

theorem digitsRev_eq (fuel n : Nat) (h : n ≤ fuel) :
    digitsRev fuel n = Nat.digits 10 n := by
  induction fuel generalizing n with
  | zero =>
      have : n = 0 := by omega
      subst this
      simp [digitsRev]
  | succ fuel ih =>
      unfold digitsRev
      by_cases hn : n = 0
      · subst hn
        simp
      · have hpos : 0 < n := Nat.pos_of_ne_zero hn
        have hlt : n / 10 < n := Nat.div_lt_self hpos (by norm_num)
        rw [if_neg hn, ih (n / 10) (by omega), Nat.digits_def' (by norm_num) hpos]

/-- Decimal representation of a natural number (big-endian digit string). -/
def natToString (n : Nat) : String :=
  if n = 0 then "0" else ⟨((digitsRev n n).map digitChar).reverse⟩

theorem natToString_eq {n : Nat} (h : n ≠ 0) :
    natToString n = ⟨((Nat.digits 10 n).map digitChar).reverse⟩ := by
  unfold natToString
  rw [if_neg h, digitsRev_eq n n (le_refl n)]

/-- Python zero-padded formatting of width w: pad the decimal representation of `n` on the
left to a minimum width of `w`. -/
def padNum (w n : Nat) : String :=
  let s := natToString n
  ⟨List.replicate (w - s.length) '0' ++ s.data⟩

/-- Read a decimal digit string back to the number it denotes. -/
def decToNat (s : String) : Nat :=
  s.data.foldl (fun a c => 10 * a + (c.toNat - 48)) 0

theorem digitChar_toNat {d : Nat} (h : d < 10) : (digitChar d).toNat = 48 + d := by
  interval_cases d <;> rfl

theorem foldl_dec_replicate (k : Nat) (l : List Char) :
    List.foldl (fun a c => 10 * a + (c.toNat - 48)) 0 (List.replicate k '0' ++ l)
      = List.foldl (fun a c => 10 * a + (c.toNat - 48)) 0 l := by
  induction k with
  | zero => rfl
  | succ k ih => simpa [List.replicate_succ] using ih

theorem foldl_dec_digits (l : List Nat) (a : Nat) (h : ∀ d ∈ l, d < 10) :
    List.foldl (fun x c => 10 * x + (c.toNat - 48)) a ((l.map digitChar).reverse)
      = a * 10 ^ l.length + Nat.ofDigits 10 l := by
  induction l generalizing a with
  | nil => simp [Nat.ofDigits]
  | cons d t ih =>
      have hd : d < 10 := h d (List.mem_cons_self d t)
      have ht : ∀ x ∈ t, x < 10 := fun x hx => h x (List.mem_cons_of_mem d hx)
      have : ((d :: t).map digitChar).reverse = (t.map digitChar).reverse ++ [digitChar d] := by
        simp
      rw [this, List.foldl_append, ih a ht]
      simp only [List.foldl_cons, List.foldl_nil, digitChar_toNat hd, List.length_cons,
        Nat.ofDigits_cons, pow_succ, Nat.cast_id, Nat.add_sub_cancel_left]
      ring

theorem decToNat_padNum (w n : Nat) : decToNat (padNum w n) = n := by
  unfold decToNat padNum
  rw [foldl_dec_replicate]
  by_cases h : n = 0
  · subst h; rfl
  · have hd : ∀ d ∈ Nat.digits 10 n, d < 10 :=
      fun d hdm => Nat.digits_lt_base (by norm_num) hdm
    have : (natToString n).data = ((Nat.digits 10 n).map digitChar).reverse := by
      rw [natToString_eq h]
    rw [this, foldl_dec_digits _ 0 hd]
    simp [Nat.ofDigits_digits]

theorem digitsLen_le {n k : Nat} (h : n < 10 ^ k) : (Nat.digits 10 n).length ≤ k := by
  by_cases hn : n = 0
  · subst hn; simp
  · by_contra hk
    push_neg at hk
    have h1 : (10 : Nat) ^ ((Nat.digits 10 n).length) ≤ 10 * n :=
      Nat.base_pow_length_digits_le 10 n (by norm_num) hn
    have h2 : (10 : Nat) ^ (k + 1) ≤ 10 ^ (Nat.digits 10 n).length :=
      Nat.pow_le_pow_right (by norm_num) hk
    have h3 : (10 : Nat) ^ (k + 1) = 10 * 10 ^ k := by ring
    omega

theorem natToString_length_le {n k : Nat} (hk : 1 ≤ k) (h : n < 10 ^ k) :
    (natToString n).length ≤ k := by
  by_cases hn : n = 0
  · subst hn; simpa [natToString] using hk
  · have : (natToString n).length = (Nat.digits 10 n).length := by
      rw [natToString_eq hn]
      simp [String.length]
    rw [this]
    exact digitsLen_le h

theorem padNum_length {w n : Nat} (hw : 1 ≤ w) (h : n < 10 ^ w) :
    (padNum w n).length = w := by
  have hlen : (natToString n).length ≤ w := natToString_length_le hw h
  simp only [padNum, String.length]
  simp only [List.length_append, List.length_replicate]
  have : (natToString n).data.length = (natToString n).length := rfl
  omega

theorem daysInMonth_pos {y m : Nat} (h1 : 1 ≤ m) (h2 : m ≤ 12) :
    1 ≤ daysInMonth y m := by
  interval_cases m <;> cases h : isLeap y <;> simp [daysInMonth, h]

theorem daysBeforeMonth_step {y m : Nat} (h1 : 2 ≤ m) (h2 : m ≤ 12) :
    daysBeforeMonth y m = daysBeforeMonth y (m - 1) + daysInMonth y (m - 1) := by
  interval_cases m <;> cases h : isLeap y <;> simp [daysBeforeMonth, daysInMonth, h]

theorem isLeap_iff (y : Nat) :
    isLeap y = true ↔ (y % 4 = 0 ∧ (y % 100 ≠ 0 ∨ y % 400 = 0)) := by
  simp [isLeap]

set_option maxHeartbeats 1000000 in
theorem daysBeforeYear_step {y : Nat} (h : 2 ≤ y) :
    daysBeforeYear y = daysBeforeYear (y - 1) + 365 + (if isLeap (y - 1) then 1 else 0) := by
  cases hb : isLeap (y - 1) with
  | false =>
      have hc : ¬((y - 1) % 4 = 0 ∧ ((y - 1) % 100 ≠ 0 ∨ (y - 1) % 400 = 0)) := by
        rw [← isLeap_iff, hb]; exact Bool.false_ne_true
      simp only [Bool.false_eq_true, if_false]
      unfold daysBeforeYear
      omega
  | true =>
      have hc : (y - 1) % 4 = 0 ∧ ((y - 1) % 100 ≠ 0 ∨ (y - 1) % 400 = 0) :=
        (isLeap_iff (y - 1)).mp hb
      simp only [if_true]
      unfold daysBeforeYear
      omega

/-- Sanity check of the `prevDay` model against the `datetime` library's
ordinal-based day arithmetic: going back one day decrements `toordinal`. -/
theorem toordinal_prevDay {d : Date} (hv : d.Valid) (h : d ≠ ⟨1, 1, 1⟩) :
    d.prevDay.toordinal + 1 = d.toordinal := by
  obtain ⟨y, m, day⟩ := d
  obtain ⟨hy1, hy2, hm1, hm2, hd1, hd2⟩ := hv
  dsimp only at hy1 hy2 hm1 hm2 hd1 hd2
  unfold Date.prevDay
  dsimp only
  split
  · unfold Date.toordinal
    dsimp only
    omega
  · split
    · rename_i hday hm
      unfold Date.toordinal
      dsimp only
      have := daysBeforeMonth_step (y := y) (m := m) (by omega) hm2
      omega
    · rename_i hday hm
      have hmeq : m = 1 := by omega
      have hdeq : day = 1 := by omega
      have hyge : 2 ≤ y := by
        rcases Nat.lt_or_ge y 2 with hlt | hge
        · exfalso
          apply h
          have : y = 1 := by omega
          simp [this, hmeq, hdeq]
        · exact hge
      have hstep := daysBeforeYear_step hyge
      have h12 : daysBeforeMonth (y - 1) 12 = 334 + (if isLeap (y - 1) then 1 else 0) := rfl
      have h1 : daysBeforeMonth y 1 = 0 := rfl
      unfold Date.toordinal
      dsimp only
      rw [hmeq, hdeq, h1, h12]
      omega

/-- Going back one day from a valid date with year at least 2 stays valid,
keeps the year positive, and cannot reach the calendar minimum. -/
theorem prevDay_valid {d : Date} (hv : d.Valid) (hy : 2 ≤ d.year) :
    d.prevDay.Valid ∧ d.prevDay ≠ ⟨1, 1, 1⟩ ∧ 1 ≤ d.prevDay.year ∧
      d.prevDay.year ≤ d.year := by
  obtain ⟨y, m, day⟩ := d
  obtain ⟨hy1, hy2, hm1, hm2, hd1, hd2⟩ := hv
  dsimp only at hy1 hy2 hm1 hm2 hd1 hd2 hy
  unfold Date.prevDay
  dsimp only
  split
  · refine ⟨?_, ?_, by dsimp only; omega, by dsimp only; omega⟩
    · unfold Date.Valid
      dsimp only
      omega
    · simp only [ne_eq, Date.mk.injEq]
      omega
  · split
    · rename_i hday hm
      have hpos := daysInMonth_pos (y := y) (m := m - 1) (by omega) (by omega)
      refine ⟨?_, ?_, by dsimp only; omega, by dsimp only; omega⟩
      · unfold Date.Valid
        dsimp only
        omega
      · simp only [ne_eq, Date.mk.injEq]
        omega
    · rename_i hday hm
      have h31 : daysInMonth (y - 1) 12 = 31 := rfl
      refine ⟨?_, ?_, by dsimp only; omega, by dsimp only; omega⟩
      · unfold Date.Valid
        dsimp only
        rw [h31]
        omega
      · simp only [ne_eq, Date.mk.injEq]
        omega

/-- Going back one day from any valid date other than the calendar minimum
stays valid and does not increase the year. -/
theorem prevDay_valid' {d : Date} (hv : d.Valid) (hmin : d ≠ ⟨1, 1, 1⟩) :
    d.prevDay.Valid ∧ d.prevDay.year ≤ d.year := by
  obtain ⟨y, m, day⟩ := d
  obtain ⟨hy1, hy2, hm1, hm2, hd1, hd2⟩ := hv
  dsimp only at hy1 hy2 hm1 hm2 hd1 hd2
  unfold Date.prevDay
  dsimp only
  split
  · refine ⟨⟨?_, ?_, ?_, ?_, ?_, ?_⟩, ?_⟩ <;> (dsimp only; omega)
  · split
    · rename_i hday hm
      have hpos := daysInMonth_pos (y := y) (m := m - 1) (by omega) (by omega)
      refine ⟨⟨?_, ?_, ?_, ?_, ?_, ?_⟩, ?_⟩ <;> (dsimp only; omega)
    · rename_i hday hm
      have hyne : y ≠ 1 := by
        intro hc
        apply hmin
        simp only [Date.mk.injEq]
        omega
      have h31 : daysInMonth (y - 1) 12 = 31 := rfl
      refine ⟨⟨?_, ?_, ?_, ?_, ?_, ?_⟩, ?_⟩ <;> (dsimp only; omega)

/-- Every month has at most 31 days. -/
theorem daysInMonth_le (y m : Nat) : daysInMonth y m ≤ 31 := by
  unfold daysInMonth
  split <;> first | omega | (split <;> omega)

/-- Starting from year 2 or later, one day back never lands on the calendar
minimum. -/
theorem prevDay_ne_min {d : Date} (hv : d.Valid) (hy : 2 ≤ d.year) :
    d.prevDay ≠ ⟨1, 1, 1⟩ := by
  obtain ⟨y, m, day⟩ := d
  obtain ⟨hy1, hy2, hm1, hm2, hd1, hd2⟩ := hv
  dsimp only at hy1 hy2 hm1 hm2 hd1 hd2 hy
  unfold Date.prevDay
  dsimp only
  split
  · simp only [ne_eq, Date.mk.injEq]
    omega
  · split
    · simp only [ne_eq, Date.mk.injEq]
      omega
    · simp only [ne_eq, Date.mk.injEq]
      omega

/-! ### Shared payload model

The upstream provider's JSON body, after `json.loads`. The three known
top-level fields are `timestamp`, `source` and `quotes`; an absent field is
`none`. (Unknown extra top-level fields are dropped by `filter_fx_data` and
are never read, so they are not represented.) The `quotes` mapping is an
association list in insertion order; rates, parsed by Python as floats, are
modelled as rationals. -/

structure RawPayload where
  timestamp : Option Int
  source : Option String
  quotes : Option (List (String × Rat))
deriving DecidableEq, Repr

/-- Python's `field in data` for the three known top-level fields. -/
def hasField (d : RawPayload) (f : String) : Bool :=
  if f = "timestamp" then d.timestamp.isSome
  else if f = "source" then d.source.isSome
  else if f = "quotes" then d.quotes.isSome
  else false

/-- The `required_fields` list shared verbatim by Ingest and Transform. -/
def required_fields : List String := ["timestamp", "source", "quotes"]

/-- The first `for field in required_fields` loop of `validate_fx_data`:
raise on the first absent field. -/
def checkRequired (d : RawPayload) : List String → Except String Unit
  | [] => .ok ()
  | f :: rest =>
      if hasField d f then checkRequired d rest
      else .error ("Missing required field: " ++ f)

/-- Python's `currency in data["quotes"]` dict-membership test. -/
def quoteMem (qs : List (String × Rat)) (c : String) : Bool :=
  (qs.lookup c).isSome

/-- The `for currency in TARGET_CURRENCY_CODES` loop of Ingest's
`validate_fx_data`: raise on the first absent quote. -/
def checkQuotes (qs : List (String × Rat)) : List String → Except String Unit
  | [] => .ok ()
  | c :: rest =>
      if quoteMem qs c then checkQuotes qs rest
      else .error ("Missing FX quote for: " ++ c)

/-! ### Ingest job (`lambda-fx-ingest-function.py`) -/

/-- Environment configuration of the Ingest job. -/
structure IngestConfig where
  BUCKET_NAME : String
  BASE_CURRENCY : String
  TARGET_CURRENCIES : List String
deriving DecidableEq, Repr

/-- The list `TARGET_CURRENCY_CODES`: each target symbol appended to the base currency. -/
def TARGET_CURRENCY_CODES (cfg : IngestConfig) : List String :=
  cfg.TARGET_CURRENCIES.map (fun c => cfg.BASE_CURRENCY ++ c)

/-- Ingest's `get_run_date`: parse `run_date`, subtract one day, format the
zero-padded `(year, month, day)` triple. -/
def Ingest.get_run_date (e : Event) : String × String × String :=
  let fx_dt := e.run_date.subOneDay
  (padNum 4 fx_dt.date.year, padNum 2 fx_dt.date.month, padNum 2 fx_dt.date.day)

/-- Ingest's `validate_fx_data`: required top-level fields, then every
configured target pair code within `quotes`. -/
def Ingest.validate_fx_data (codes : List String) (d : RawPayload) : Except String Unit :=
  match checkRequired d required_fields with
  | .error e => .error e
  | .ok _ =>
      match d.quotes with
      | some qs => checkQuotes qs codes
      | none => .error "KeyError: quotes"

/-- Ingest's `filter_fx_data`: keep only the three known fields. -/
def filter_fx_data (d : RawPayload) : RawPayload :=
  { timestamp := d.timestamp, source := d.source, quotes := d.quotes }

/-- Ingest's `build_s3_key`. -/
def Ingest.build_s3_key (year month day : String) : String :=
  "raw/year=" ++ year ++ "/month=" ++ month ++ "/day=" ++ day ++ "/rates.json"

/-- Oracle inputs of one Ingest run: the SSM secret retrieval and the
upstream HTTP fetch (already JSON-parsed), either of which may fail. -/
structure IngestWorld where
  apiKey : Except String String
  fetched : Except String RawPayload

/-- The success payload of Ingest's handler. -/
structure IngestSuccess where
  statusCode : Nat
  message : String
  s3_key : String
deriving DecidableEq, Repr

/-- Ingest's `lambda_handler`: secret, fetch, validate, filter, date, key,
write. Returns the result together with the list of S3 writes performed
(key, body); an exception propagates and aborts before any later write. -/
def Ingest.lambda_handler (cfg : IngestConfig) (w : IngestWorld) (e : Event) :
    Except String IngestSuccess × List (String × RawPayload) :=
  match w.apiKey with
  | .error err => (.error err, [])
  | .ok _ =>
      match w.fetched with
      | .error err => (.error err, [])
      | .ok fx_data =>
          match Ingest.validate_fx_data (TARGET_CURRENCY_CODES cfg) fx_data with
          | .error err => (.error err, [])
          | .ok _ =>
              let filtered := filter_fx_data fx_data
              let r := Ingest.get_run_date e
              let s3_key := Ingest.build_s3_key r.1 r.2.1 r.2.2
              (.ok ⟨200, "FX data ingested successfully", s3_key⟩, [(s3_key, filtered)])

/-! ### Transform job (`lambda-fx-transform-function.py`) -/

/-- Transform's `get_run_date`: like Ingest's but also returns the shifted
datetime `fx_dt` for the weekday computation. -/
def Transform.get_run_date (e : Event) : String × String × String × DateTime :=
  let fx_dt := e.run_date.subOneDay
  (padNum 4 fx_dt.date.year, padNum 2 fx_dt.date.month, padNum 2 fx_dt.date.day, fx_dt)

/-- Transform's `build_s3_key` (the raw read key). -/
def Transform.build_s3_key (year month day : String) : String :=
  "raw/year=" ++ year ++ "/month=" ++ month ++ "/day=" ++ day ++ "/rates.json"

/-- Python's `str.startswith`. -/
def strStartsWith (s p : String) : Bool :=
  p.data.isPrefixOf s.data

/-- Transform's `validate_fx_data`: only the required top-level fields. -/
def Transform.validate_fx_data (d : RawPayload) : Except String Unit :=
  checkRequired d required_fields

/-- Transform's `is_weekday`: true on Monday-Friday. -/
def is_weekday (fx_dt : DateTime) : Bool :=
  fx_dt.date.weekday < 5

/-- A normalized per-pair record as written by Transform. -/
structure NormRecord where
  pair : String
  rate : Rat
  date : String
  market_open : Bool
deriving DecidableEq, Repr

/-- Transform's `normalize_and_write`: one record and one S3 write per
`(pair, rate)` entry of `quotes`, returning the written (key, record) pairs
and the accumulated `written_files` key list. -/
def Transform.normalize_and_write (data : RawPayload) (year month day : String)
    (fx_dt : DateTime) : Except String (List (String × NormRecord) × List String) :=
  match data.quotes with
  | none => .error "KeyError: quotes"
  | some quotes =>
      let writes := quotes.map (fun pr =>
        (("processed/pair=" ++ pr.1 ++ "/year=" ++ year ++ "/month=" ++ month ++
            "/day=" ++ day ++ "/data.json"),
         ({ pair := pr.1, rate := pr.2, date := year ++ "-" ++ month ++ "-" ++ day,
            market_open := is_weekday fx_dt } : NormRecord)))
      .ok (writes, writes.map Prod.fst)

/-- Oracle input of one Transform run: S3 `get_object` by key. -/
structure TransformWorld where
  getObject : String → Except String RawPayload

/-- Transform's handler result: the bare `return` of the guard branch, or
the success payload. -/
inductive TransformOutcome
  | skipped
  | completed (statusCode : Nat) (files_written : List String)
deriving DecidableEq, Repr

/-- Transform's `lambda_handler`: date, key, raw-prefix guard, read,
validate, fan-out write. Returns the result together with the S3 writes. -/
def Transform.lambda_handler (w : TransformWorld) (e : Event) :
    Except String TransformOutcome × List (String × NormRecord) :=
  let r := Transform.get_run_date e
  let read_key := Transform.build_s3_key r.1 r.2.1 r.2.2.1
  if !(strStartsWith read_key "raw/") then (.ok .skipped, [])
  else
    match w.getObject read_key with
    | .error err => (.error err, [])
    | .ok data =>
        match Transform.validate_fx_data data with
        | .error err => (.error err, [])
        | .ok _ =>
            match Transform.normalize_and_write data r.1 r.2.1 r.2.2.1 r.2.2.2 with
            | .error err => (.error err, [])
            | .ok (writes, files) => (.ok (.completed 200 files), writes)

/-! ### Analysis job (`lambda-fx-analysis-function.py`)

The Athena client is modelled per query execution: a sequence of
`get_query_execution` poll responses and the `get_query_results` row set.
Result cells carry the parsed numeric value of `VarCharValue` (or `none`
when the key is absent). The handler returns `none` when a polling loop
never reaches a terminal state (the `while True` loop never exits). -/

/-- Environment configuration of the Analysis job. -/
structure AnalysisConfig where
  ATHENA_DATABASE : String
  ATHENA_OUTPUT : String
  ATHENA_TABLE : String
  ATHENA_WORKGROUP : String
  PAIR : String
deriving DecidableEq, Repr

/-- The metric name: the configured pair followed by "Deviation". -/
def DEVIATION_METRIC (cfg : AnalysisConfig) : String :=
  cfg.PAIR ++ "Deviation"

/-- The fixed metric namespace "FX/Analysis". -/
def METRIC_NAMESPACE : String := "FX/Analysis"

/-- An Athena query execution state. -/
inductive QState
  | queued
  | running
  | succeeded
  | failed
  | cancelled
deriving DecidableEq, Repr

/-- Membership in `("SUCCEEDED", "FAILED", "CANCELLED")`. -/
def QState.isTerminal : QState → Bool
  | .succeeded => true
  | .failed => true
  | .cancelled => true
  | _ => false

/-- One `get_query_execution` response: the state and the optional
`StateChangeReason`. -/
structure PollResp where
  state : QState
  reason : Option String
deriving DecidableEq, Repr

/-- Analysis's `get_yesterdays_date`: one more day back from `fx_dt`,
zero-padded. -/
def Analysis.get_yesterdays_date (fx_dt : DateTime) : String × String × String :=
  let dt_pd := fx_dt.subOneDay
  (padNum 4 dt_pd.date.year, padNum 2 dt_pd.date.month, padNum 2 dt_pd.date.day)

/-- Analysis's `get_run_date` (same as Transform's). -/
def Analysis.get_run_date (e : Event) : String × String × String × DateTime :=
  let fx_dt := e.run_date.subOneDay
  (padNum 4 fx_dt.date.year, padNum 2 fx_dt.date.month, padNum 2 fx_dt.date.day, fx_dt)

/-- Analysis's `is_weekend`: true on Saturday and Sunday. -/
def is_weekend (fx_dt : DateTime) : Bool :=
  fx_dt.date.weekday ≥ 5

/-- Analysis's `wait_for_query`: poll until a terminal state, logging the
reported reason at error level on a non-success terminal state. Returns
`none` when the response sequence never reaches a terminal state (the
Python loop would spin forever); otherwise the terminal state and the
error-log lines emitted. -/
def wait_for_query : List PollResp → Option (QState × List String)
  | [] => none
  | r :: rest =>
      if r.state.isTerminal then
        if r.state = QState.succeeded then some (r.state, [])
        else some (r.state, ["Athena query failed: " ++ r.reason.getD "Unknown"])
      else wait_for_query rest

/-- Analysis's `get_single_value`:
`float(rows[1]["Data"][0]["VarCharValue"])`, with row 0 the header row.
An out-of-range index or an absent `VarCharValue` raises. -/
def get_single_value (rows : List (List (Option Rat))) : Except String Rat :=
  match rows.get? 1 with
  | none => .error "IndexError: list index out of range"
  | some row =>
      match row.get? 0 with
      | none => .error "IndexError: list index out of range"
      | some none => .error "KeyError: VarCharValue"
      | some (some v) => .ok v

/-- One Athena query execution as seen by the job: the poll responses and
the fetched result rows. -/
structure QueryExecution where
  polls : List PollResp
  rows : List (List (Option Rat))

/-- Analysis's `get_todays_rate`: start the query, wait, raise a generic
error on a non-success terminal state, otherwise extract the scalar. -/
def Analysis.get_todays_rate (qe : QueryExecution) : Option (Except String Rat) × List String :=
  match wait_for_query qe.polls with
  | none => (none, [])
  | some (st, logs) =>
      if st = QState.succeeded then (some (get_single_value qe.rows), logs)
      else (some (.error "Athena query for todays rate failed"), logs)

/-- Analysis's `get_yesterdays_rate`: identical shape, different message. -/
def Analysis.get_yesterdays_rate (qe : QueryExecution) : Option (Except String Rat) × List String :=
  match wait_for_query qe.polls with
  | none => (none, [])
  | some (st, logs) =>
      if st = QState.succeeded then (some (get_single_value qe.rows), logs)
      else (some (.error "Athena query for daily average failed"), logs)

/-- Analysis's `publish_metric`: one CloudWatch data point
(namespace, metric name, deviation scaled to percent, unit). -/
def Analysis.publish_metric (cfg : AnalysisConfig) (deviation : Rat) :
    List (String × String × Rat × String) :=
  [(METRIC_NAMESPACE, DEVIATION_METRIC cfg, deviation * 100, "Percent")]

/-- Oracle inputs of one Analysis run: the execution of the first (today)
and second (yesterday) submitted queries. -/
structure AnalysisWorld where
  todayQuery : QueryExecution
  yesterdayQuery : QueryExecution

/-- Analysis's handler result: the weekend skip payload
`{"status": ..., "reason": ...}` or the summary payload. -/
inductive AnalysisOutcome
  | skipped (status reason : String)
  | report (pair : String) (todays_rate yesterdays_rate deviation : Rat)
deriving DecidableEq, Repr

/-- The externally visible side effects of one Analysis run: how many
queries were submitted to Athena, the CloudWatch metric data points
published, and the error-log lines written. -/
structure AnalysisEffects where
  queriesStarted : Nat
  metricsPublished : List (String × String × Rat × String)
  errorLogs : List String
deriving DecidableEq, Repr

/-- Analysis's `lambda_handler`: resolve the dates, skip on a weekend
business date, otherwise run the two scalar queries, compute
`deviation = abs(todays_rate - yesterdays_rate) / yesterdays_rate`
(a zero `yesterdays_rate` raises `ZeroDivisionError`), publish the metric
and return the summary. -/
def Analysis.lambda_handler (cfg : AnalysisConfig) (w : AnalysisWorld) (e : Event) :
    Option (Except String AnalysisOutcome) × AnalysisEffects :=
  let r := Analysis.get_run_date e
  let fx_dt := r.2.2.2
  if is_weekend fx_dt then
    (some (.ok (.skipped "skipped" "weekend")), ⟨0, [], []⟩)
  else
    match Analysis.get_todays_rate w.todayQuery with
    | (none, logs) => (none, ⟨1, [], logs⟩)
    | (some (.error err), logs) => (some (.error err), ⟨1, [], logs⟩)
    | (some (.ok todays_rate), logs1) =>
        match Analysis.get_yesterdays_rate w.yesterdayQuery with
        | (none, logs2) => (none, ⟨2, [], logs1 ++ logs2⟩)
        | (some (.error err), logs2) => (some (.error err), ⟨2, [], logs1 ++ logs2⟩)
        | (some (.ok yesterdays_rate), logs2) =>
            if yesterdays_rate = 0 then
              (some (.error "ZeroDivisionError: float division by zero"),
                ⟨2, [], logs1 ++ logs2⟩)
            else
              let deviation := abs (todays_rate - yesterdays_rate) / yesterdays_rate
              (some (.ok (.report cfg.PAIR todays_rate yesterdays_rate deviation)),
                ⟨2, Analysis.publish_metric cfg deviation, logs1 ++ logs2⟩)

/-! ### Helper lemmas -/

/-- Substring containment, Python's `sub in s`. -/
def strContains (s sub : String) : Bool :=
  decide (sub.data <:+: s.data)

theorem strContains_append (pre sub : String) : strContains (pre ++ sub) sub = true := by
  unfold strContains
  rw [decide_eq_true_eq, String.data_append]
  exact (List.suffix_append _ _).isInfix

theorem isPrefixOf_self_append (l t : List Char) : l.isPrefixOf (l ++ t) = true := by
  induction l with
  | nil => simp [List.isPrefixOf]
  | cons a as ih => simp [List.isPrefixOf, ih]

theorem transform_key_startsWith (y m d : String) :
    strStartsWith (Transform.build_s3_key y m d) "raw/" = true := by
  unfold strStartsWith Transform.build_s3_key
  have h : ("raw/year=" : String) = "raw/" ++ "year=" := by decide
  rw [h]
  simp only [String.data_append, List.append_assoc]
  exact isPrefixOf_self_append _ _

/-! ### The claims -/

/-- Claim C1: the date resolvers duplicated in Ingest, Transform and
Analysis produce identical zero-padded (year, month, day) string triples
for `business_date` on every event, and Ingest's and Transform's raw-key
builders produce the identical raw object key string for every triple, so
the same business date maps to the same storage partition in all three
jobs. -/
theorem claim_C1 (e : Event) (y m d : String) :
    Ingest.get_run_date e =
      ((Transform.get_run_date e).1, (Transform.get_run_date e).2.1,
        (Transform.get_run_date e).2.2.1) ∧
    Ingest.get_run_date e =
      ((Analysis.get_run_date e).1, (Analysis.get_run_date e).2.1,
        (Analysis.get_run_date e).2.2.1) ∧
    Transform.get_run_date e = Analysis.get_run_date e ∧
    Ingest.build_s3_key y m d = Transform.build_s3_key y m d :=
  ⟨rfl, rfl, rfl, rfl⟩

/-- Claim C10: Transform's defensive no-op guard is unreachable: the key
built by `build_s3_key` always begins with `"raw/"`, so the handler never
takes the skip branch (its result is never the bare skip return) and always
proceeds to read the raw object. -/
theorem claim_C10 (w : TransformWorld) (e : Event) (y m d : String) :
    strStartsWith (Transform.build_s3_key y m d) "raw/" = true ∧
    (Transform.lambda_handler w e).1 ≠ Except.ok TransformOutcome.skipped := by
  refine ⟨transform_key_startsWith y m d, ?_⟩
  unfold Transform.lambda_handler
  simp only [transform_key_startsWith, Bool.not_true, Bool.false_eq_true, if_false]
  rcases hobj : w.getObject (Transform.build_s3_key (Transform.get_run_date e).1
      (Transform.get_run_date e).2.1 (Transform.get_run_date e).2.2.1) with err | data
  · simp [hobj]
  · simp only [hobj]
    rcases hval : Transform.validate_fx_data data with e2 | u
    · simp
    · rcases hnw : Transform.normalize_and_write data (Transform.get_run_date e).1
          (Transform.get_run_date e).2.1 (Transform.get_run_date e).2.2.1
          (Transform.get_run_date e).2.2.2 with e3 | pr
      · simp
      · simp

/-- Witness for claim C10 at a concrete event and key triple. -/
theorem claim_C10_witness :
    strStartsWith (Transform.build_s3_key "2024" "01" "05") "raw/" = true ∧
    (Transform.lambda_handler ⟨fun _ => .error "NoSuchKey"⟩
        ⟨⟨⟨2024, 1, 9⟩, 0, 0, 0, none⟩⟩).1 ≠ Except.ok TransformOutcome.skipped :=
  ⟨(claim_C10 ⟨fun _ => .error "NoSuchKey"⟩ ⟨⟨⟨2024, 1, 9⟩, 0, 0, 0, none⟩⟩
      "2024" "01" "05").1,
   (claim_C10 ⟨fun _ => .error "NoSuchKey"⟩ ⟨⟨⟨2024, 1, 9⟩, 0, 0, 0, none⟩⟩
      "2024" "01" "05").2⟩

/-- Claim C4: for every valid parsed run date and any time-of-day
component, the resolved business date is the calendar date of the run date
minus one day (its ordinal is one less), the prior business date is the
business date minus one day, and the formatted year, month and day are
zero-padded decimal strings of widths 4, 2 and 2 that read back to the
respective components. The resolved triple does not depend on the
time-of-day or offset. (Stated for run dates of year at least 2, the domain
on which the `datetime` library can subtract the two days.) -/
theorem claim_C4 (dt : DateTime) (hv : dt.date.Valid) (hy : 2 ≤ dt.date.year) :
    Analysis.get_run_date ⟨dt⟩ =
      (padNum 4 dt.date.prevDay.year, padNum 2 dt.date.prevDay.month,
        padNum 2 dt.date.prevDay.day,
        ⟨dt.date.prevDay, dt.hour, dt.minute, dt.second, dt.offsetMinutes⟩) ∧
    Ingest.get_run_date ⟨dt⟩ =
      (padNum 4 dt.date.prevDay.year, padNum 2 dt.date.prevDay.month,
        padNum 2 dt.date.prevDay.day) ∧
    Analysis.get_yesterdays_date dt.subOneDay =
      (padNum 4 dt.date.prevDay.prevDay.year, padNum 2 dt.date.prevDay.prevDay.month,
        padNum 2 dt.date.prevDay.prevDay.day) ∧
    dt.date.prevDay.toordinal + 1 = dt.date.toordinal ∧
    dt.date.prevDay.prevDay.toordinal + 1 = dt.date.prevDay.toordinal ∧
    (padNum 4 dt.date.prevDay.year).length = 4 ∧
    (padNum 2 dt.date.prevDay.month).length = 2 ∧
    (padNum 2 dt.date.prevDay.day).length = 2 ∧
    decToNat (padNum 4 dt.date.prevDay.year) = dt.date.prevDay.year ∧
    decToNat (padNum 2 dt.date.prevDay.month) = dt.date.prevDay.month ∧
    decToNat (padNum 2 dt.date.prevDay.day) = dt.date.prevDay.day ∧
    (∀ h2 mi2 s2 off2,
      Ingest.get_run_date ⟨⟨dt.date, h2, mi2, s2, off2⟩⟩ = Ingest.get_run_date ⟨dt⟩) := by
  have hmin : dt.date ≠ ⟨1, 1, 1⟩ := by
    intro hc
    rw [hc] at hy
    exact absurd hy (by decide)
  obtain ⟨hbv, hble⟩ := prevDay_valid' hv hmin
  have hbmin : dt.date.prevDay ≠ ⟨1, 1, 1⟩ := prevDay_ne_min hv hy
  have hylt : dt.date.prevDay.year < 10 ^ 4 := by
    have h1 := hbv.2.1
    have h2 := hv.2.1
    have : (10 : Nat) ^ 4 = 10000 := by norm_num
    omega
  have hmlt : dt.date.prevDay.month < 10 ^ 2 := by
    have h1 := hbv.2.2.2.1
    have : (10 : Nat) ^ 2 = 100 := by norm_num
    omega
  have hdlt : dt.date.prevDay.day < 10 ^ 2 := by
    have h1 := hbv.2.2.2.2.2
    have h2 := daysInMonth_le dt.date.prevDay.year dt.date.prevDay.month
    have : (10 : Nat) ^ 2 = 100 := by norm_num
    omega
  exact ⟨rfl, rfl, rfl, toordinal_prevDay hv hmin, toordinal_prevDay hbv hbmin,
    padNum_length (by norm_num) hylt, padNum_length (by norm_num) hmlt,
    padNum_length (by norm_num) hdlt, decToNat_padNum 4 _, decToNat_padNum 2 _,
    decToNat_padNum 2 _, fun _ _ _ _ => rfl⟩

/-- Witness for claim C4 at the run date 2024-03-01 12:30:15+00:00: the
business date is 2024-02-29 (leap day) and the prior business date is
2024-02-28. -/
theorem claim_C4_witness :
    ((⟨⟨2024, 3, 1⟩, 12, 30, 15, some 0⟩ : DateTime).date.Valid ∧
      2 ≤ (⟨⟨2024, 3, 1⟩, 12, 30, 15, some 0⟩ : DateTime).date.year) ∧
    Ingest.get_run_date ⟨⟨⟨2024, 3, 1⟩, 12, 30, 15, some 0⟩⟩ = ("2024", "02", "29") ∧
    Analysis.get_yesterdays_date (⟨⟨2024, 3, 1⟩, 12, 30, 15, some 0⟩ : DateTime).subOneDay
      = ("2024", "02", "28") := by
  have h := claim_C4 ⟨⟨2024, 3, 1⟩, 12, 30, 15, some 0⟩ (by decide) (by decide)
  refine ⟨⟨by decide, by decide⟩, ?_, ?_⟩
  · rw [h.2.1]
    decide
  · rw [h.2.2.1]
    decide

/-- Claim C5: whenever the business date falls on a Saturday or Sunday
(weekday index 5 or 6), the Analysis handler returns the
`{"status": "skipped", "reason": "weekend"}` payload, submits no query to
Athena and publishes no metric. -/
theorem claim_C5 (cfg : AnalysisConfig) (w : AnalysisWorld) (e : Event)
    (h : e.run_date.date.prevDay.weekday = 5 ∨ e.run_date.date.prevDay.weekday = 6) :
    Analysis.lambda_handler cfg w e =
      (some (Except.ok (AnalysisOutcome.skipped "skipped" "weekend")), ⟨0, [], []⟩) := by
  have hw : is_weekend (Analysis.get_run_date e).2.2.2 = true := by
    unfold is_weekend Analysis.get_run_date DateTime.subOneDay
    dsimp only
    rcases h with h | h <;> simp [h]
  unfold Analysis.lambda_handler
  simp only [hw, if_true]

/-- Witness for claim C5: run date 2024-01-07 resolves to the business
date 2024-01-06, a Saturday. -/
theorem claim_C5_witness :
    ((⟨⟨2024, 1, 7⟩, 0, 0, 0, none⟩ : DateTime).date.prevDay.weekday = 5 ∨
      (⟨⟨2024, 1, 7⟩, 0, 0, 0, none⟩ : DateTime).date.prevDay.weekday = 6) ∧
    Analysis.lambda_handler ⟨"db", "out", "tbl", "wg", "USDJPY"⟩ ⟨⟨[], []⟩, ⟨[], []⟩⟩
        ⟨⟨⟨2024, 1, 7⟩, 0, 0, 0, none⟩⟩ =
      (some (Except.ok (AnalysisOutcome.skipped "skipped" "weekend")), ⟨0, [], []⟩) :=
  ⟨Or.inl (by decide),
    claim_C5 ⟨"db", "out", "tbl", "wg", "USDJPY"⟩ ⟨⟨[], []⟩, ⟨[], []⟩⟩
      ⟨⟨⟨2024, 1, 7⟩, 0, 0, 0, none⟩⟩ (Or.inl (by decide))⟩

/-- Claim C6: the scalar extraction returns the rate at row index 1 (row 0
is the header row) whenever a data row with a populated first cell exists,
and fails with an index error when the result set has no row beyond the
header. -/
theorem claim_C6 (rows : List (List (Option Rat))) :
    (∀ (v : Rat) (cells : List (Option Rat)), rows.get? 1 = some (some v :: cells) →
        get_single_value rows = .ok v) ∧
    (rows.length < 2 →
        get_single_value rows = .error "IndexError: list index out of range") := by
  constructor
  · intro v cells hrow
    unfold get_single_value
    rw [hrow]
    rfl
  · intro hlen
    unfold get_single_value
    have hnone : rows.get? 1 = none := by
      rw [List.get?_eq_none]
      omega
    rw [hnone]

/-- Witness for claim C6: a two-row result set yields the value of row 1;
a header-only result set fails. -/
theorem claim_C6_witness :
    ([[some (3 : Rat)], [some 7, none]] : List (List (Option Rat))).get? 1
        = some (some 7 :: [none]) ∧
    get_single_value [[some (3 : Rat)], [some 7, none]] = .ok 7 ∧
    ([[some (3 : Rat)]] : List (List (Option Rat))).length < 2 ∧
    get_single_value [[some (3 : Rat)]] = .error "IndexError: list index out of range" :=
  ⟨rfl, (claim_C6 _).1 7 [none] rfl, by decide, (claim_C6 _).2 (by decide)⟩

/-- Claim C7: with both rates extracted, the handler computes
`deviation = abs(todays_rate - yesterdays_rate) / yesterdays_rate` and
publishes the single data point `deviation * 100` with unit `"Percent"`
under the pair-specific metric name when the yesterday rate is nonzero;
when it is zero the run fails with the arithmetic fault and publishes no
metric. -/
theorem claim_C7 (cfg : AnalysisConfig) (w : AnalysisWorld) (e : Event)
    (t yv : Rat) (l1 l2 : List String)
    (hwk : is_weekend (Analysis.get_run_date e).2.2.2 = false)
    (ht : Analysis.get_todays_rate w.todayQuery = (some (.ok t), l1))
    (hy : Analysis.get_yesterdays_rate w.yesterdayQuery = (some (.ok yv), l2)) :
    (yv ≠ 0 → Analysis.lambda_handler cfg w e =
      (some (.ok (.report cfg.PAIR t yv (abs (t - yv) / yv))),
        ⟨2, [(METRIC_NAMESPACE, DEVIATION_METRIC cfg, abs (t - yv) / yv * 100, "Percent")],
          l1 ++ l2⟩)) ∧
    (yv = 0 → Analysis.lambda_handler cfg w e =
      (some (.error "ZeroDivisionError: float division by zero"), ⟨2, [], l1 ++ l2⟩)) := by
  constructor <;> intro hz <;>
    (unfold Analysis.lambda_handler
     simp only [hwk, Bool.false_eq_true, if_false, ht, hy])
  · rw [if_neg hz]
    rfl
  · rw [if_pos hz]

/-- Witness for claim C7 at today rate 153 and yesterday rate 150: a
deviation of 1/50, published as the value 2 percent. -/
theorem claim_C7_witness :
    is_weekend (Analysis.get_run_date ⟨⟨⟨2024, 1, 9⟩, 0, 0, 0, none⟩⟩).2.2.2 = false ∧
    Analysis.get_todays_rate ⟨[⟨QState.succeeded, none⟩], [[some 1], [some 153]]⟩
      = (some (.ok (153 : Rat)), []) ∧
    Analysis.get_yesterdays_rate ⟨[⟨QState.succeeded, none⟩], [[some 1], [some 150]]⟩
      = (some (.ok (150 : Rat)), []) ∧
    Analysis.lambda_handler ⟨"db", "out", "tbl", "wg", "USDJPY"⟩
        ⟨⟨[⟨QState.succeeded, none⟩], [[some 1], [some 153]]⟩,
          ⟨[⟨QState.succeeded, none⟩], [[some 1], [some 150]]⟩⟩
        ⟨⟨⟨2024, 1, 9⟩, 0, 0, 0, none⟩⟩ =
      (some (.ok (.report "USDJPY" 153 150 (abs ((153 : Rat) - 150) / 150))),
        ⟨2, [(METRIC_NAMESPACE, "USDJPYDeviation", abs ((153 : Rat) - 150) / 150 * 100,
          "Percent")], [] ++ []⟩) :=
  ⟨by decide, rfl, rfl,
    (claim_C7 ⟨"db", "out", "tbl", "wg", "USDJPY"⟩
      ⟨⟨[⟨QState.succeeded, none⟩], [[some 1], [some 153]]⟩,
        ⟨[⟨QState.succeeded, none⟩], [[some 1], [some 150]]⟩⟩
      ⟨⟨⟨2024, 1, 9⟩, 0, 0, 0, none⟩⟩ 153 150 [] [] (by decide) rfl rfl).1
      (by norm_num)⟩

theorem checkRequired_required (d : RawPayload) :
    checkRequired d required_fields =
      (if d.timestamp.isSome then
        (if d.source.isSome then
          (if d.quotes.isSome then .ok () else .error "Missing required field: quotes")
         else .error "Missing required field: source")
       else .error "Missing required field: timestamp") := rfl

/-- Claim C2 counterexample: a payload carrying all three required
top-level fields but an empty quotes mapping. With the default
configuration (base "USD", target ["JPY"]) Ingest's validator rejects it
(missing quote "USDJPY") while Transform's accepts it, so the two
validators do not fail on the same payloads. -/
theorem claim_C2_counterexample :
    ¬ (((Transform.validate_fx_data ⟨some 0, some "USD", some []⟩).isOk = false) ↔
       ((Ingest.validate_fx_data (TARGET_CURRENCY_CODES ⟨"bucket", "USD", ["JPY"]⟩)
          ⟨some 0, some "USD", some []⟩).isOk = false)) := by decide

/-- Claim C2 as amended: Transform's validator checks only the three
required top-level fields — it accepts a parsed payload exactly when
`timestamp`, `source` and `quotes` are all present, performing no per-quote
check — so it accepts every payload Ingest's validator accepts (but not
conversely). -/
theorem claim_C2_amended (cfg : IngestConfig) (d : RawPayload) :
    ((Transform.validate_fx_data d).isOk = true ↔
      (d.timestamp.isSome = true ∧ d.source.isSome = true ∧ d.quotes.isSome = true)) ∧
    ((Ingest.validate_fx_data (TARGET_CURRENCY_CODES cfg) d).isOk = true →
      (Transform.validate_fx_data d).isOk = true) := by
  rcases d with ⟨ts, src, qs⟩
  cases ts <;> cases src <;> cases qs <;>
    simp_all [Transform.validate_fx_data, Ingest.validate_fx_data, checkRequired_required,
      Except.isOk, Except.toBool]

/-- Witness for claim C2 as amended, at the counterexample payload: both
validators agree that a fully-fielded payload passes Transform's check. -/
theorem claim_C2_amended_witness :
    (Transform.validate_fx_data ⟨some 0, some "USD", some []⟩).isOk = true ∧
    ((Option.some (0 : Int)).isSome = true ∧ (Option.some "USD").isSome = true ∧
      (Option.some ([] : List (String × Rat))).isSome = true) :=
  ⟨(claim_C2_amended ⟨"bucket", "USD", ["JPY"]⟩ ⟨some 0, some "USD", some []⟩).1.mpr
      ⟨by decide, by decide, by decide⟩,
    by decide, by decide, by decide⟩

/-- Claim C3 counterexample: a poll sequence RUNNING, RUNNING, FAILED with
`StateChangeReason` "SYNTAX_ERROR" makes the handler raise the fixed
message "Athena query for todays rate failed", which does not contain the
engine's reported reason; no metric is published. The claim that the
raised error's payload contains the reported reason is therefore false. -/
theorem claim_C3_counterexample :
    (Analysis.lambda_handler ⟨"db", "out", "tbl", "wg", "USDJPY"⟩
        ⟨⟨[⟨QState.running, none⟩, ⟨QState.running, none⟩,
            ⟨QState.failed, some "SYNTAX_ERROR"⟩], []⟩, ⟨[], []⟩⟩
        ⟨⟨⟨2024, 1, 9⟩, 0, 0, 0, none⟩⟩).1
      = some (.error "Athena query for todays rate failed") ∧
    strContains "Athena query for todays rate failed" "SYNTAX_ERROR" = false ∧
    (Analysis.lambda_handler ⟨"db", "out", "tbl", "wg", "USDJPY"⟩
        ⟨⟨[⟨QState.running, none⟩, ⟨QState.running, none⟩,
            ⟨QState.failed, some "SYNTAX_ERROR"⟩], []⟩, ⟨[], []⟩⟩
        ⟨⟨⟨2024, 1, 9⟩, 0, 0, 0, none⟩⟩).2.metricsPublished = [] :=
  ⟨rfl, by decide, rfl⟩

/-- Claim C3 as amended: when the first query's terminal state is FAILED or
CANCELLED, the handler raises the generic error with the fixed message
"Athena query for todays rate failed" — the engine's reported
`StateChangeReason` appears only in the error log, not in the raised
error — and no metric is published. -/
theorem claim_C3_amended (cfg : AnalysisConfig) (w : AnalysisWorld) (e : Event)
    (st : QState) (r : String)
    (hwk : is_weekend (Analysis.get_run_date e).2.2.2 = false)
    (hst : st = QState.failed ∨ st = QState.cancelled)
    (hpoll : wait_for_query w.todayQuery.polls = some (st, ["Athena query failed: " ++ r])) :
    Analysis.lambda_handler cfg w e =
      (some (.error "Athena query for todays rate failed"),
        ⟨1, [], ["Athena query failed: " ++ r]⟩) ∧
    strContains ("Athena query failed: " ++ r) r = true := by
  have hne : st ≠ QState.succeeded := by
    rcases hst with h | h <;> (subst h; intro hc; cases hc)
  have hgt : Analysis.get_todays_rate w.todayQuery =
      (some (.error "Athena query for todays rate failed"), ["Athena query failed: " ++ r]) := by
    unfold Analysis.get_todays_rate
    rw [hpoll]
    dsimp only
    rw [if_neg hne]
  constructor
  · unfold Analysis.lambda_handler
    simp only [hwk, Bool.false_eq_true, if_false, hgt]
  · exact strContains_append "Athena query failed: " r

/-- Witness for claim C3 as amended, at the counterexample's inputs. -/
theorem claim_C3_amended_witness :
    is_weekend (Analysis.get_run_date ⟨⟨⟨2024, 1, 9⟩, 0, 0, 0, none⟩⟩).2.2.2 = false ∧
    wait_for_query [⟨QState.running, none⟩, ⟨QState.running, none⟩,
        ⟨QState.failed, some "SYNTAX_ERROR"⟩]
      = some (QState.failed, ["Athena query failed: " ++ "SYNTAX_ERROR"]) ∧
    Analysis.lambda_handler ⟨"db", "out", "tbl", "wg", "USDJPY"⟩
        ⟨⟨[⟨QState.running, none⟩, ⟨QState.running, none⟩,
            ⟨QState.failed, some "SYNTAX_ERROR"⟩], []⟩, ⟨[], []⟩⟩
        ⟨⟨⟨2024, 1, 9⟩, 0, 0, 0, none⟩⟩ =
      (some (.error "Athena query for todays rate failed"),
        ⟨1, [], ["Athena query failed: " ++ "SYNTAX_ERROR"]⟩) :=
  ⟨by decide, rfl,
    (claim_C3_amended ⟨"db", "out", "tbl", "wg", "USDJPY"⟩
      ⟨⟨[⟨QState.running, none⟩, ⟨QState.running, none⟩,
          ⟨QState.failed, some "SYNTAX_ERROR"⟩], []⟩, ⟨[], []⟩⟩
      ⟨⟨⟨2024, 1, 9⟩, 0, 0, 0, none⟩⟩ QState.failed "SYNTAX_ERROR"
      (by decide) (Or.inl rfl) rfl).1⟩

/-- A single validation violation: an absent required top-level field or an
absent configured target quote. -/
inductive Violation where
  | field (name : String)
  | quote (code : String)
deriving DecidableEq, Repr

/-- The error message the validator produces for a violation. -/
def violationMsg : Violation → String
  | .field f => "Missing required field: " ++ f
  | .quote c => "Missing FX quote for: " ++ c

/-- First configured code absent from the quotes mapping, in configured
order. -/
def firstMissingQuote (qs : List (String × Rat)) : List String → Option String
  | [] => none
  | c :: rest => if quoteMem qs c then firstMissingQuote qs rest else some c

/-- Modelled from the claim's wording: the first violation encountered when
checking the top-level fields in the order timestamp, source, quotes and
then each configured target code in configured order. -/
def firstViolation (codes : List String) (d : RawPayload) : Option Violation :=
  if d.timestamp.isNone then some (.field "timestamp")
  else if d.source.isNone then some (.field "source")
  else
    match d.quotes with
    | none => some (.field "quotes")
    | some qs => (firstMissingQuote qs codes).map .quote

theorem checkQuotes_eq (qs : List (String × Rat)) (codes : List String) :
    checkQuotes qs codes =
      (match firstMissingQuote qs codes with
       | none => Except.ok ()
       | some c => Except.error ("Missing FX quote for: " ++ c)) := by
  induction codes with
  | nil => rfl
  | cons c rest ih =>
      unfold checkQuotes firstMissingQuote
      by_cases h : quoteMem qs c = true
      · rw [if_pos h, if_pos h, ih]
      · rw [if_neg h, if_neg h]

/-- Claim C8: Ingest's validator reports exactly the first violation
encountered, checking the top-level fields in the order timestamp, source,
quotes before any per-quote check (and accepts when there is no
violation); in particular, when the quotes field is absent from an
otherwise-fielded payload, the handler fails with the error naming
"quotes" and performs no storage write. -/
theorem claim_C8 (cfg : IngestConfig) (d : RawPayload) :
    Ingest.validate_fx_data (TARGET_CURRENCY_CODES cfg) d =
      (match firstViolation (TARGET_CURRENCY_CODES cfg) d with
       | none => Except.ok ()
       | some v => Except.error (violationMsg v)) ∧
    (∀ (w : IngestWorld) (e : Event) (k : String),
        w.apiKey = .ok k → w.fetched = .ok d →
        d.timestamp.isSome = true → d.source.isSome = true → d.quotes = none →
        (Ingest.lambda_handler cfg w e).2 = [] ∧
        (Ingest.lambda_handler cfg w e).1 = .error "Missing required field: quotes" ∧
        strContains "Missing required field: quotes" "quotes" = true) := by
  constructor
  · rcases d with ⟨ts, src, qs⟩
    unfold Ingest.validate_fx_data firstViolation
    rw [checkRequired_required]
    cases ts <;> cases src <;> cases qs <;>
      simp only [Option.isSome_none, Option.isSome_some, Option.isNone_none, Option.isNone_some,
        Bool.false_eq_true, if_false, if_true, violationMsg] <;>
      first
        | rfl
        | (rename_i qs
           rcases hfm : firstMissingQuote qs (TARGET_CURRENCY_CODES cfg) with _ | c <;>
             simp [checkQuotes_eq, hfm, violationMsg])
  · intro w e k hk hf hts hsrc hq
    have hval : Ingest.validate_fx_data (TARGET_CURRENCY_CODES cfg) d =
        .error "Missing required field: quotes" := by
      unfold Ingest.validate_fx_data
      rw [checkRequired_required, hq]
      simp [hts, hsrc]
    unfold Ingest.lambda_handler
    rw [hk, hf]
    dsimp only
    rw [hval]
    exact ⟨rfl, rfl, by decide⟩

/-- Witness for claim C8 at a payload with timestamp and source present
but quotes absent: the first violation is the quotes field, the handler
raises its message and writes nothing. -/
theorem claim_C8_witness :
    firstViolation (TARGET_CURRENCY_CODES ⟨"bucket", "USD", ["JPY"]⟩)
        ⟨some 0, some "USD", none⟩ = some (.field "quotes") ∧
    (Ingest.lambda_handler ⟨"bucket", "USD", ["JPY"]⟩ ⟨.ok "k", .ok ⟨some 0, some "USD", none⟩⟩
        ⟨⟨⟨2024, 1, 9⟩, 0, 0, 0, none⟩⟩).2 = [] ∧
    (Ingest.lambda_handler ⟨"bucket", "USD", ["JPY"]⟩ ⟨.ok "k", .ok ⟨some 0, some "USD", none⟩⟩
        ⟨⟨⟨2024, 1, 9⟩, 0, 0, 0, none⟩⟩).1 = .error "Missing required field: quotes" :=
  ⟨by decide,
    ((claim_C8 ⟨"bucket", "USD", ["JPY"]⟩ ⟨some 0, some "USD", none⟩).2
      ⟨.ok "k", .ok ⟨some 0, some "USD", none⟩⟩ ⟨⟨⟨2024, 1, 9⟩, 0, 0, 0, none⟩⟩ "k"
      rfl rfl (by decide) (by decide) rfl).1,
    ((claim_C8 ⟨"bucket", "USD", ["JPY"]⟩ ⟨some 0, some "USD", none⟩).2
      ⟨.ok "k", .ok ⟨some 0, some "USD", none⟩⟩ ⟨⟨⟨2024, 1, 9⟩, 0, 0, 0, none⟩⟩ "k"
      rfl rfl (by decide) (by decide) rfl).2.1⟩

/-- Claim C9: for a validated raw payload, Transform writes exactly one
normalized record per (pair, rate) entry of the quotes mapping — each with
fields pair, rate, date equal to the business date formatted
"YYYY-MM-DD", and market_open equal to (business date's weekday index
< 5) — and returns the full list of written keys, one key of the form
`processed/pair={pair}/year={Y}/month={M}/day={D}/data.json` per entry. -/
theorem claim_C9 (w : TransformWorld) (e : Event) (d : RawPayload)
    (qs : List (String × Rat))
    (hget : w.getObject (Transform.build_s3_key (Transform.get_run_date e).1
        (Transform.get_run_date e).2.1 (Transform.get_run_date e).2.2.1) = .ok d)
    (hts : d.timestamp.isSome = true) (hsrc : d.source.isSome = true)
    (hq : d.quotes = some qs) :
    Transform.lambda_handler w e =
      (.ok (.completed 200 (qs.map (fun pr =>
          "processed/pair=" ++ pr.1 ++ "/year=" ++ (Transform.get_run_date e).1 ++
            "/month=" ++ (Transform.get_run_date e).2.1 ++ "/day=" ++
            (Transform.get_run_date e).2.2.1 ++ "/data.json"))),
        qs.map (fun pr =>
          ("processed/pair=" ++ pr.1 ++ "/year=" ++ (Transform.get_run_date e).1 ++
            "/month=" ++ (Transform.get_run_date e).2.1 ++ "/day=" ++
            (Transform.get_run_date e).2.2.1 ++ "/data.json",
           { pair := pr.1, rate := pr.2,
             date := (Transform.get_run_date e).1 ++ "-" ++ (Transform.get_run_date e).2.1 ++
               "-" ++ (Transform.get_run_date e).2.2.1,
             market_open := decide (e.run_date.date.prevDay.weekday < 5) }))) ∧
    (Transform.lambda_handler w e).2.length = qs.length := by
  have hval : Transform.validate_fx_data d = .ok () := by
    unfold Transform.validate_fx_data
    rw [checkRequired_required, hq]
    simp [hts, hsrc]
  have hmain : Transform.lambda_handler w e =
      (.ok (.completed 200 (qs.map (fun pr =>
          "processed/pair=" ++ pr.1 ++ "/year=" ++ (Transform.get_run_date e).1 ++
            "/month=" ++ (Transform.get_run_date e).2.1 ++ "/day=" ++
            (Transform.get_run_date e).2.2.1 ++ "/data.json"))),
        qs.map (fun pr =>
          ("processed/pair=" ++ pr.1 ++ "/year=" ++ (Transform.get_run_date e).1 ++
            "/month=" ++ (Transform.get_run_date e).2.1 ++ "/day=" ++
            (Transform.get_run_date e).2.2.1 ++ "/data.json",
           { pair := pr.1, rate := pr.2,
             date := (Transform.get_run_date e).1 ++ "-" ++ (Transform.get_run_date e).2.1 ++
               "-" ++ (Transform.get_run_date e).2.2.1,
             market_open := decide (e.run_date.date.prevDay.weekday < 5) }))) := by
    unfold Transform.lambda_handler
    simp only [transform_key_startsWith, Bool.not_true, Bool.false_eq_true, if_false, hget,
      hval]
    unfold Transform.normalize_and_write
    rw [hq]
    dsimp only
    have hwd : is_weekday (Transform.get_run_date e).2.2.2 =
        decide (e.run_date.date.prevDay.weekday < 5) := rfl
    simp [List.map_map, Function.comp, hwd]
  exact ⟨hmain, by rw [hmain]; simp⟩

/-- Witness for claim C9: the quotes mapping with entries USDJPY at 150 and
USDEUR at 9/10, run for business date 2024-01-08 (a Monday), yields
exactly two records and two keys. -/
theorem claim_C9_witness :
    ((⟨fun _ => .ok ⟨some 0, some "USD", some [("USDJPY", 150), ("USDEUR", (9 : Rat)/10)]⟩⟩ :
        TransformWorld).getObject
      (Transform.build_s3_key (Transform.get_run_date ⟨⟨⟨2024, 1, 9⟩, 0, 0, 0, none⟩⟩).1
        (Transform.get_run_date ⟨⟨⟨2024, 1, 9⟩, 0, 0, 0, none⟩⟩).2.1
        (Transform.get_run_date ⟨⟨⟨2024, 1, 9⟩, 0, 0, 0, none⟩⟩).2.2.1)
      = .ok ⟨some 0, some "USD", some [("USDJPY", 150), ("USDEUR", (9 : Rat)/10)]⟩) ∧
    Transform.lambda_handler
        ⟨fun _ => .ok ⟨some 0, some "USD", some [("USDJPY", 150), ("USDEUR", (9 : Rat)/10)]⟩⟩
        ⟨⟨⟨2024, 1, 9⟩, 0, 0, 0, none⟩⟩ =
      (.ok (.completed 200
          ["processed/pair=USDJPY/year=2024/month=01/day=08/data.json",
           "processed/pair=USDEUR/year=2024/month=01/day=08/data.json"]),
        [("processed/pair=USDJPY/year=2024/month=01/day=08/data.json",
            ⟨"USDJPY", 150, "2024-01-08", true⟩),
         ("processed/pair=USDEUR/year=2024/month=01/day=08/data.json",
            ⟨"USDEUR", (9 : Rat)/10, "2024-01-08", true⟩)]) := by
  refine ⟨rfl, ?_⟩
  have h := (claim_C9
    ⟨fun _ => .ok ⟨some 0, some "USD", some [("USDJPY", 150), ("USDEUR", (9 : Rat)/10)]⟩⟩
    ⟨⟨⟨2024, 1, 9⟩, 0, 0, 0, none⟩⟩
    ⟨some 0, some "USD", some [("USDJPY", 150), ("USDEUR", (9 : Rat)/10)]⟩
    [("USDJPY", 150), ("USDEUR", (9 : Rat)/10)] rfl (by decide) (by decide) rfl).1
  rw [h]
  rfl

end FxPipeline
